import Mathlib

/-!
Verification of the nwep QUIC/HTTP-3 facade (`@webprotocol/nwep`).

The Rust sources under `src/` are shallowly embedded below.  The external
protocol engine (quiche) is an out-of-scope collaborator: facade functions
that delegate to it are parametrised by the engine's result, and the few
pieces of engine state the spec constrains (connection-closure bookkeeping)
are modelled from the spec, marked as such in their doc comments.
-/

namespace Nwep

/-- Status codes of the host (napi) error surface used by the facade. -/
inductive Status where
  | Ok
  | InvalidArg
  | GenericFailure
deriving DecidableEq, Repr

/-- Embedding of `napi::Error`: a status kind plus a reason string. -/
structure NapiError where
  status : Status
  reason : String
deriving DecidableEq, Repr

/-- Embedding of `napi::Error::from_reason`, which always uses
`Status::GenericFailure`. -/
def from_reason (msg : String) : NapiError :=
  ⟨Status.GenericFailure, msg⟩

/-- Embedding of the `NapiResult` alias from `error.rs`. -/
abbrev NapiResult (α : Type) := Except NapiError α

instance {ε α : Type} [DecidableEq ε] [DecidableEq α] : DecidableEq (Except ε α) :=
  fun a b =>
    match a, b with
    | .ok x, .ok y =>
      if h : x = y then .isTrue (h ▸ rfl) else .isFalse fun hc => h (Except.ok.inj hc)
    | .ok _, .error _ => .isFalse fun hc => Except.noConfusion hc
    | .error _, .ok _ => .isFalse fun hc => Except.noConfusion hc
    | .error x, .error y =>
      if h : x = y then .isTrue (h ▸ rfl) else .isFalse fun hc => h (Except.error.inj hc)

/-- Embedding of `quiche::Error` (the transport-level error taxonomy),
with the variant payloads (`u64` stream ids / codes) as `Nat`. -/
inductive QuicheError where
  | Done
  | BufferTooShort
  | UnknownVersion
  | InvalidFrame
  | InvalidPacket
  | InvalidState
  | InvalidStreamState (stream : Nat)
  | InvalidTransportParam
  | CryptoFail
  | TlsFail
  | FlowControl
  | StreamLimit
  | StreamStopped (code : Nat)
  | StreamReset (code : Nat)
  | FinalSize
  | CongestionControl
  | IdLimit
  | OutOfIdentifiers
  | KeyUpdate
  | CryptoBufferExceeded
  | InvalidAckRange
  | OptimisticAckDetected
deriving DecidableEq, Repr

/-- Embedding of `quiche::h3::Error` (the HTTP/3 error taxonomy). -/
inductive H3Error where
  | Done
  | BufferTooShort
  | InternalError
  | ExcessiveLoad
  | IdError
  | StreamCreationError
  | ClosedCriticalStream
  | MissingSettings
  | FrameUnexpected
  | FrameError
  | QpackDecompressionFailed
  | TransportError (e : QuicheError)
  | StreamBlocked
  | SettingsError
  | RequestRejected
  | RequestCancelled
  | RequestIncomplete
  | ConnectError
  | VersionFallback
  | MessageError
deriving DecidableEq, Repr

/-- Embedding of `to_napi_error` from `error.rs`: maps every transport error
variant to a fixed message under `Status::GenericFailure`. -/
def to_napi_error (err : QuicheError) : NapiError :=
  let message :=
    match err with
    | .Done => "No more work to do"
    | .BufferTooShort => "Buffer too short"
    | .UnknownVersion => "Unknown QUIC version"
    | .InvalidFrame => "Invalid frame"
    | .InvalidPacket => "Invalid packet"
    | .InvalidState => "Invalid connection state"
    | .InvalidStreamState _ => "Invalid stream state"
    | .InvalidTransportParam => "Invalid transport parameter"
    | .CryptoFail => "Cryptographic operation failed"
    | .TlsFail => "TLS handshake failed"
    | .FlowControl => "Flow control violation"
    | .StreamLimit => "Stream limit exceeded"
    | .StreamStopped _ => "Stream stopped by peer"
    | .StreamReset _ => "Stream reset by peer"
    | .FinalSize => "Final size exceeded"
    | .CongestionControl => "Congestion control error"
    | .IdLimit => "ID limit exceeded"
    | .OutOfIdentifiers => "Out of identifiers"
    | .KeyUpdate => "Key update error"
    | .CryptoBufferExceeded => "Crypto buffer exceeded"
    | .InvalidAckRange => "Invalid ACK range"
    | .OptimisticAckDetected => "Optimistic ACK detected"
  ⟨Status.GenericFailure, message⟩

/-- Embedding of `to_napi_error_h3` from `error.rs`: maps every HTTP/3 error
variant to a fixed message under `Status::GenericFailure`. -/
def to_napi_error_h3 (err : H3Error) : NapiError :=
  let message :=
    match err with
    | .Done => "No more work to do"
    | .BufferTooShort => "Buffer too short"
    | .InternalError => "Internal HTTP/3 error"
    | .ExcessiveLoad => "Excessive load"
    | .IdError => "HTTP/3 ID error"
    | .StreamCreationError => "Stream creation error"
    | .ClosedCriticalStream => "Closed critical stream"
    | .MissingSettings => "Missing HTTP/3 settings"
    | .FrameUnexpected => "Unexpected HTTP/3 frame"
    | .FrameError => "HTTP/3 frame error"
    | .QpackDecompressionFailed => "QPACK decompression failed"
    | .TransportError _ => "QUIC transport error"
    | .StreamBlocked => "Stream blocked"
    | .SettingsError => "HTTP/3 settings error"
    | .RequestRejected => "Request rejected"
    | .RequestCancelled => "Request cancelled"
    | .RequestIncomplete => "Request incomplete"
    | .ConnectError => "HTTP/3 connect error"
    | .VersionFallback => "Version fallback"
    | .MessageError => "HTTP/3 message error"
  ⟨Status.GenericFailure, message⟩

/-- Socket address as it matters to the facade after parsing succeeded:
an opaque, comparable value. -/
structure SockAddr where
  host : Nat
  port : Nat
deriving DecidableEq, Repr

/-- Path information returned by the engine's send alongside the byte count
(discarded by the facade's `send`). -/
structure SendInfo where
  from_addr : SockAddr
  to_addr : SockAddr
deriving DecidableEq, Repr

/-- Modelled from the spec: the slice of engine connection state the facade
contract constrains.  The engine records at most one local closure cause
(`is_app`, error code, raw reason bytes), captured once when closure occurs
and never updated again. -/
structure EngineConn where
  localError : Option (Bool × Nat × List Nat)
deriving DecidableEq, Repr

/-- Modelled from the spec: the engine's `close` primitive.  A first close on
a live connection records the cause and succeeds; once a closure cause is
recorded, further closes report `Done` and leave the snapshot unchanged. -/
def EngineConn.close (c : EngineConn) (app : Bool) (err_code : Nat)
    (reason : List Nat) : Except QuicheError Unit × EngineConn :=
  match c.localError with
  | some _ => (.error .Done, c)
  | none => (.ok (), ⟨some (app, err_code, reason)⟩)

/-- Embedding of the facade's `Connection` struct: the engine connection plus
the locally bound address. -/
structure Connection where
  inner : EngineConn
  local_addr : SockAddr
deriving DecidableEq, Repr

/-- Embedding of `quiche::MAX_CONN_ID_LEN` (20), re-exported by the facade as
`MAX_CONN_ID_LEN`. -/
def MAX_CONN_ID_LEN : Nat := 20

/-- Embedding of `Connection::connect`.  The external address parser's
results stand in for the two address strings, and the engine's constructor is
a parameter.  The second component records whether the engine was invoked. -/
def Connection.connect (scid : List Nat) (localParse peerParse : Option SockAddr)
    (engine : SockAddr → SockAddr → Except QuicheError EngineConn) :
    NapiResult Connection × Bool :=
  match localParse with
  | none => (.error ⟨Status.InvalidArg, "Invalid local address"⟩, false)
  | some local_addr =>
    match peerParse with
    | none => (.error ⟨Status.InvalidArg, "Invalid peer address"⟩, false)
    | some peer_addr =>
      if scid.length = 0 ∨ scid.length > MAX_CONN_ID_LEN then
        (.error ⟨Status.InvalidArg, "SCID must be 1-20 bytes"⟩, false)
      else
        match engine local_addr peer_addr with
        | .ok conn => (.ok ⟨conn, local_addr⟩, true)
        | .error e => (.error (to_napi_error e), true)

/-- Embedding of `Connection::accept`, instrumented like
`Connection.connect`; `odcid` is forwarded to the engine unvalidated. -/
def Connection.accept (scid : List Nat) (odcid : Option (List Nat))
    (localParse peerParse : Option SockAddr)
    (engine : Option (List Nat) → SockAddr → SockAddr → Except QuicheError EngineConn) :
    NapiResult Connection × Bool :=
  match localParse with
  | none => (.error ⟨Status.InvalidArg, "Invalid local address"⟩, false)
  | some local_addr =>
    match peerParse with
    | none => (.error ⟨Status.InvalidArg, "Invalid peer address"⟩, false)
    | some peer_addr =>
      if scid.length = 0 ∨ scid.length > MAX_CONN_ID_LEN then
        (.error ⟨Status.InvalidArg, "SCID must be 1-20 bytes"⟩, false)
      else
        match engine odcid local_addr peer_addr with
        | .ok conn => (.ok ⟨conn, local_addr⟩, true)
        | .error e => (.error (to_napi_error e), true)

/-- Embedding of `Connection::send` as a function of the engine's send
result: a byte count with path info, or a transport error.  `Done` becomes
the null outcome; every other engine error is surfaced via `to_napi_error`. -/
def Connection.send (engineResult : Except QuicheError (Nat × SendInfo)) :
    NapiResult (Option Nat) :=
  match engineResult with
  | .ok (bytes, _) => .ok (some bytes)
  | .error .Done => .ok none
  | .error e => .error (to_napi_error e)

/-- Embedding of `Connection::dgram_recv` as a function of the engine's
result: `Done` becomes null, other errors are surfaced. -/
def Connection.dgram_recv (engineResult : Except QuicheError Nat) :
    NapiResult (Option Nat) :=
  match engineResult with
  | .ok len => .ok (some len)
  | .error .Done => .ok none
  | .error e => .error (to_napi_error e)

/-- Embedding of `Connection::stream_writable`: the engine's writability
check returns `Ok(bool)` or an error, and the facade applies
`unwrap_or(false)`. -/
def Connection.stream_writable (engineResult : Except QuicheError Bool) : Bool :=
  match engineResult with
  | .ok b => b
  | .error _ => false

/-- Embedding of the migration engine-call results: a destination-identifier
sequence number.  `Connection::probe_path` parses both addresses with
`from_reason` errors, then delegates.  The second component records whether
the engine was invoked. -/
def Connection.probe_path (localParse peerParse : Option SockAddr)
    (engine : SockAddr → SockAddr → Except QuicheError Nat) :
    NapiResult Nat × Bool :=
  match localParse with
  | none => (.error (from_reason "Invalid local address"), false)
  | some local_addr =>
    match peerParse with
    | none => (.error (from_reason "Invalid peer address"), false)
    | some peer_addr =>
      match engine local_addr peer_addr with
      | .ok seq => (.ok seq, true)
      | .error e => (.error (to_napi_error e), true)

/-- Embedding of `Connection::migrate`, identical in shape to
`Connection.probe_path`. -/
def Connection.migrate (localParse peerParse : Option SockAddr)
    (engine : SockAddr → SockAddr → Except QuicheError Nat) :
    NapiResult Nat × Bool :=
  match localParse with
  | none => (.error (from_reason "Invalid local address"), false)
  | some local_addr =>
    match peerParse with
    | none => (.error (from_reason "Invalid peer address"), false)
    | some peer_addr =>
      match engine local_addr peer_addr with
      | .ok seq => (.ok seq, true)
      | .error e => (.error (to_napi_error e), true)

/-- Embedding of `Connection::migrate_source`: only the local address is
taken and validated. -/
def Connection.migrate_source (localParse : Option SockAddr)
    (engine : SockAddr → Except QuicheError Nat) :
    NapiResult Nat × Bool :=
  match localParse with
  | none => (.error (from_reason "Invalid local address"), false)
  | some local_addr =>
    match engine local_addr with
    | .ok seq => (.ok seq, true)
    | .error e => (.error (to_napi_error e), true)

/-- Embedding of `Connection::close`: delegates to the engine's close and
maps a failure through `to_napi_error`. -/
def Connection.close (c : Connection) (app : Bool) (err_code : Nat)
    (reason : List Nat) : NapiResult Unit × Connection :=
  match EngineConn.close c.inner app err_code reason with
  | (.ok (), inner2) => (.ok (), { c with inner := inner2 })
  | (.error e, inner2) => (.error (to_napi_error e), { c with inner := inner2 })

/-- Continuation-byte test of the UTF-8 validation used by Rust's
`String::from_utf8_lossy`: a byte in `0x80 ..= 0xBF`. -/
def isCont (b : Nat) : Bool :=
  0x80 ≤ b && b ≤ 0xBF

/-- UTF-8 encoding of U+FFFD, the replacement character emitted by
`String::from_utf8_lossy` for each invalid maximal subpart. -/
def replacementBytes : List Nat :=
  [0xEF, 0xBF, 0xBD]

/-- Lead byte of a two-byte UTF-8 sequence: `0xC2 ..= 0xDF`. -/
def is2Starter (b : Nat) : Bool :=
  0xC2 ≤ b && b ≤ 0xDF

/-- Lead byte of a three-byte UTF-8 sequence: `0xE0 ..= 0xEF`. -/
def is3Starter (b : Nat) : Bool :=
  b = 0xE0 || (0xE1 ≤ b && b ≤ 0xEC) || b = 0xED || (0xEE ≤ b && b ≤ 0xEF)

/-- Lead byte of a four-byte UTF-8 sequence: `0xF0 ..= 0xF4`. -/
def is4Starter (b : Nat) : Bool :=
  0xF0 ≤ b && b ≤ 0xF4

/-- Admissible second byte of a three-byte UTF-8 sequence headed by `b`. -/
def valid3Second (b c : Nat) : Bool :=
  if b = 0xE0 then 0xA0 ≤ c && c ≤ 0xBF
  else if b = 0xED then 0x80 ≤ c && c ≤ 0x9F
  else isCont c

/-- Admissible second byte of a four-byte UTF-8 sequence headed by `b`. -/
def valid4Second (b c : Nat) : Bool :=
  if b = 0xF0 then 0x90 ≤ c && c ≤ 0xBF
  else if b = 0xF4 then 0x80 ≤ c && c ≤ 0x8F
  else isCont c

/-- UTF-8 bytes of the string produced by Rust's `String::from_utf8_lossy`:
well-formed sequences are copied through, each invalid maximal subpart is
replaced by U+FFFD, and a truncated trailing sequence yields one U+FFFD. -/
def utf8Lossy : List Nat → List Nat
  | [] => []
  | b :: rest =>
    if b < 0x80 then
      b :: utf8Lossy rest
    else if is2Starter b then
      match rest with
      | [] => replacementBytes
      | c :: r2 =>
        if isCont c then b :: c :: utf8Lossy r2
        else replacementBytes ++ utf8Lossy (c :: r2)
    else if is3Starter b then
      match rest with
      | [] => replacementBytes
      | c :: r2 =>
        if valid3Second b c then
          match r2 with
          | [] => replacementBytes
          | d :: r3 =>
            if isCont d then b :: c :: d :: utf8Lossy r3
            else replacementBytes ++ utf8Lossy (d :: r3)
        else replacementBytes ++ utf8Lossy (c :: r2)
    else if is4Starter b then
      match rest with
      | [] => replacementBytes
      | c :: r2 =>
        if valid4Second b c then
          match r2 with
          | [] => replacementBytes
          | d :: r3 =>
            if isCont d then
              match r3 with
              | [] => replacementBytes
              | e :: r4 =>
                if isCont e then b :: c :: d :: e :: utf8Lossy r4
                else replacementBytes ++ utf8Lossy (e :: r4)
            else replacementBytes ++ utf8Lossy (d :: r3)
        else replacementBytes ++ utf8Lossy (c :: r2)
    else
      replacementBytes ++ utf8Lossy rest

/-- Well-formed UTF-8 byte sequences: a concatenation of ASCII bytes and
well-formed two-, three- and four-byte sequences (Rust `core::str`
validation). -/
inductive ValidUtf8 : List Nat → Prop where
  | nil : ValidUtf8 []
  | one (b : Nat) (rest : List Nat) : b < 0x80 → ValidUtf8 rest →
      ValidUtf8 (b :: rest)
  | two (b c : Nat) (rest : List Nat) : is2Starter b = true → isCont c = true →
      ValidUtf8 rest → ValidUtf8 (b :: c :: rest)
  | three (b c d : Nat) (rest : List Nat) : is3Starter b = true →
      valid3Second b c = true → isCont d = true → ValidUtf8 rest →
      ValidUtf8 (b :: c :: d :: rest)
  | four (b c d e : Nat) (rest : List Nat) : is4Starter b = true →
      valid4Second b c = true → isCont d = true → isCont e = true →
      ValidUtf8 rest → ValidUtf8 (b :: c :: d :: e :: rest)

/-- Embedding of the `ConnectionErrorInfo` object; `reason` holds the UTF-8
bytes of the string the facade produces. -/
structure ConnectionErrorInfo where
  is_app : Bool
  error_code : Nat
  reason : List Nat
deriving DecidableEq, Repr

/-- Embedding of `Connection::local_error`: projects the engine's recorded
local closure cause, converting the raw reason bytes with
`String::from_utf8_lossy`. -/
def Connection.local_error (c : Connection) : Option ConnectionErrorInfo :=
  c.inner.localError.map fun x => ⟨x.1, x.2.1, utf8Lossy x.2.2⟩

/-- Embedding of `generate_cid` from `utils.rs`.  The system RNG is a
parameter: `rngOk` is whether its `fill` call succeeds, and `rng` gives the
byte written at each index of the pre-allocated `len`-byte buffer. -/
def generate_cid (len : Nat) (rngOk : Bool) (rng : Nat → Nat) :
    NapiResult (List Nat) :=
  if len = 0 ∨ len > MAX_CONN_ID_LEN then
    .error ⟨Status.InvalidArg, "Length must be 1-20"⟩
  else if rngOk then
    .ok ((List.range len).map fun i => rng i % 256)
  else
    .error ⟨Status.GenericFailure, "Failed to generate random bytes"⟩

/-- Loop body of `encode_alpn`: walks the protocol list in order, appending a
length byte and the name's bytes to the accumulator, failing at the first
name longer than 255 bytes. -/
def encodeAlpnLoop : List (List Nat) → List Nat → NapiResult (List Nat)
  | [], acc => .ok acc
  | p :: rest, acc =>
    if p.length > 255 then
      .error ⟨Status.InvalidArg, "Protocol name too long (max 255 bytes)"⟩
    else
      encodeAlpnLoop rest (acc ++ p.length :: p)

/-- Embedding of `encode_alpn` from `utils.rs`, with protocol names as their
byte lists. -/
def encode_alpn (protocols : List (List Nat)) : NapiResult (List Nat) :=
  encodeAlpnLoop protocols []

/-- Embedding of `nwep_alpn` from `utils.rs`: the literal bytes
`\x06nwep/1`. -/
def nwep_alpn : List Nat :=
  [0x06, 0x6E, 0x77, 0x65, 0x70, 0x2F, 0x31]

/-- Embedding of `nwep_and_h3_alpn` from `utils.rs`: the literal bytes
`\x06nwep/1\x02h3`. -/
def nwep_and_h3_alpn : List Nat :=
  [0x06, 0x6E, 0x77, 0x65, 0x70, 0x2F, 0x31, 0x02, 0x68, 0x33]

/-- Big-endian `u32::from_be_bytes` on four bytes. -/
def u32FromBeBytes (a b c d : Nat) : Nat :=
  (a % 256) * 2 ^ 24 + (b % 256) * 2 ^ 16 + (c % 256) * 2 ^ 8 + d % 256

/-- Embedding of `is_version_negotiation` from `packet.rs`: buffers shorter
than 5 bytes or without the long-header bit give `false`; otherwise the check
is whether the big-endian version field at bytes 1-4 is zero. -/
def is_version_negotiation (buf : List Nat) : Bool :=
  if buf.length < 5 then false
  else if buf.getD 0 0 &&& 0x80 = 0 then false
  else u32FromBeBytes (buf.getD 1 0) (buf.getD 2 0) (buf.getD 3 0) (buf.getD 4 0) = 0

/-- Embedding of the `Header` name/value pair of `h3.rs`, with raw bytes. -/
structure Header where
  name : List Nat
  value : List Nat
deriving DecidableEq, Repr

/-- Embedding of `quiche::h3::Event`, the engine-side HTTP/3 event. -/
inductive H3EngineEvent where
  | Headers (list : List Header) (more_frames : Bool)
  | Data
  | Finished
  | Reset (err_code : Nat)
  | PriorityUpdate
  | GoAway
deriving DecidableEq, Repr

/-- Embedding of the `H3Event` object returned by `H3Connection::poll`. -/
structure H3Event where
  event_type : String
  stream_id : Option Nat
  headers : Option (List Header)
  more_frames : Option Bool
  error_code : Option Nat
deriving DecidableEq, Repr

/-- Embedding of `H3Event::from_quiche` in `h3.rs`. -/
def H3Event.from_quiche (stream_id : Nat) (event : H3EngineEvent) : H3Event :=
  match event with
  | .Headers list more_frames =>
    ⟨"headers", some stream_id, some list, some more_frames, none⟩
  | .Data => ⟨"data", some stream_id, none, none, none⟩
  | .Finished => ⟨"finished", some stream_id, none, none, none⟩
  | .Reset err_code => ⟨"reset", some stream_id, none, none, some err_code⟩
  | .PriorityUpdate => ⟨"priority_update", some stream_id, none, none, none⟩
  | .GoAway => ⟨"goaway", none, none, none, none⟩

/-- Embedding of `H3Connection::poll` as a function of the engine's poll
result: `Done` becomes null, a pair becomes an event object, other errors
are surfaced via `to_napi_error_h3`. -/
def H3Connection.poll (engineResult : Except H3Error (Nat × H3EngineEvent)) :
    NapiResult (Option H3Event) :=
  match engineResult with
  | .ok (stream_id, event) => .ok (some (H3Event.from_quiche stream_id event))
  | .error .Done => .ok none
  | .error e => .error (to_napi_error_h3 e)

/-- Embedding of `PacketType` from `packet.rs`. -/
inductive PacketType where
  | Initial
  | Retry
  | Handshake
  | ZeroRTT
  | VersionNegotiation
  | Short
deriving DecidableEq, Repr

/-- Host-side byte buffer: an allocation address plus its byte contents.
Two buffers alias exactly when they share an address; `Buffer::from(vec)`
yields a fresh address. -/
structure Buffer where
  addr : Nat
  data : List Nat
deriving DecidableEq, Repr

/-- Embedding of the `PacketHeader` object from `packet.rs`. -/
structure PacketHeader where
  packet_type : PacketType
  version : Nat
  dcid : Buffer
  scid : Buffer
  token : Option Buffer
  versions : Option (List Nat)
deriving DecidableEq, Repr

/-- Allocation addresses of a header's buffer-typed fields. -/
def PacketHeader.headerAddrs (h : PacketHeader) : List Nat :=
  h.dcid.addr :: h.scid.addr ::
    (match h.token with
     | some t => [t.addr]
     | none => [])

/-- Embedding of the manual `impl Clone for PacketHeader`: `packet_type`,
`version` and `versions` are copied as values, while `dcid`, `scid` and
`token` go through `Buffer::from(buf.to_vec())` — a fresh allocation per
buffer, modelled by consecutive addresses from `alloc` upward. -/
def PacketHeader.clone (h : PacketHeader) (alloc : Nat) : PacketHeader :=
  { packet_type := h.packet_type
    version := h.version
    dcid := ⟨alloc, h.dcid.data⟩
    scid := ⟨alloc + 1, h.scid.data⟩
    token := h.token.map fun b => ⟨alloc + 2, b.data⟩
    versions := h.versions }

end Nwep

open Nwep

theorem utf8Lossy_ascii (b : Nat) (rest : List Nat) (hb : b < 0x80) :
    utf8Lossy (b :: rest) = b :: utf8Lossy rest := by
  rcases rest with _ | ⟨c1, _ | ⟨c2, _ | ⟨c3, r⟩⟩⟩ <;> simp [utf8Lossy, hb]

theorem utf8Lossy_two (b c : Nat) (rest : List Nat) (hb : is2Starter b = true)
    (hc : isCont c = true) :
    utf8Lossy (b :: c :: rest) = b :: c :: utf8Lossy rest := by
  have hnb : ¬ b < 0x80 := by
    simp [is2Starter] at hb
    omega
  rcases rest with _ | ⟨c2, _ | ⟨c3, r⟩⟩ <;> simp [utf8Lossy, hnb, hb, hc]

theorem utf8Lossy_three (b c d : Nat) (rest : List Nat) (hb : is3Starter b = true)
    (hc : valid3Second b c = true) (hd : isCont d = true) :
    utf8Lossy (b :: c :: d :: rest) = b :: c :: d :: utf8Lossy rest := by
  have hrange : 0xE0 ≤ b ∧ b ≤ 0xEF := by
    simp [is3Starter] at hb
    omega
  have hnb : ¬ b < 0x80 := by omega
  have h2 : is2Starter b = false := by
    simp [is2Starter]
    omega
  rcases rest with _ | ⟨c3, r⟩ <;> simp [utf8Lossy, hnb, h2, hb, hc, hd]

theorem utf8Lossy_four (b c d e : Nat) (rest : List Nat) (hb : is4Starter b = true)
    (hc : valid4Second b c = true) (hd : isCont d = true) (he : isCont e = true) :
    utf8Lossy (b :: c :: d :: e :: rest) = b :: c :: d :: e :: utf8Lossy rest := by
  have hrange : 0xF0 ≤ b ∧ b ≤ 0xF4 := by
    simp [is4Starter] at hb
    omega
  have hnb : ¬ b < 0x80 := by omega
  have h2 : is2Starter b = false := by
    simp [is2Starter]
    omega
  have h3 : is3Starter b = false := by
    simp [is3Starter]
    omega
  simp [utf8Lossy, hnb, h2, h3, hb, hc, hd, he]

theorem utf8Lossy_of_valid (l : List Nat) (h : ValidUtf8 l) : utf8Lossy l = l := by
  induction h with
  | nil => rfl
  | one b rest hb _ ih => rw [utf8Lossy_ascii b rest hb, ih]
  | two b c rest hb hc _ ih => rw [utf8Lossy_two b c rest hb hc, ih]
  | three b c d rest hb hc hd _ ih => rw [utf8Lossy_three b c d rest hb hc hd, ih]
  | four b c d e rest hb hc hd he _ ih =>
    rw [utf8Lossy_four b c d e rest hb hc hd he, ih]

theorem encodeAlpnLoop_ok (ps : List (List Nat)) :
    ∀ acc : List Nat, (∀ p ∈ ps, p.length ≤ 255) →
      encodeAlpnLoop ps acc =
        .ok (acc ++ ps.foldr (fun p rest => (p.length :: p) ++ rest) []) := by
  induction ps with
  | nil => intro acc _; simp [encodeAlpnLoop]
  | cons p rest ih =>
    intro acc hlen
    have hp : ¬ p.length > 255 := by
      have := hlen p (by simp)
      omega
    have hrest : ∀ q ∈ rest, q.length ≤ 255 := fun q hq => hlen q (by simp [hq])
    simp [encodeAlpnLoop, hp, ih (acc ++ p.length :: p) hrest]

/-- Claim C1: when the engine reports the Done condition, `send` returns the
null nothing-to-send outcome, `dgram_recv` returns null, and `H3Connection`
`poll` returns null — all non-error results — while every other engine
failure is surfaced as an error value. -/
theorem done_maps_to_null_never_error :
    Connection.send (.error .Done) = .ok none ∧
    Connection.dgram_recv (.error .Done) = .ok none ∧
    H3Connection.poll (.error .Done) = .ok none ∧
    (∀ (bytes : Nat) (info : SendInfo),
        Connection.send (.ok (bytes, info)) = .ok (some bytes)) ∧
    (∀ len : Nat, Connection.dgram_recv (.ok len) = .ok (some len)) ∧
    (∀ (sid : Nat) (ev : H3EngineEvent),
        H3Connection.poll (.ok (sid, ev)) = .ok (some (H3Event.from_quiche sid ev))) ∧
    (∀ e : QuicheError, e ≠ .Done →
        Connection.send (.error e) = .error (to_napi_error e)) ∧
    (∀ e : QuicheError, e ≠ .Done →
        Connection.dgram_recv (.error e) = .error (to_napi_error e)) ∧
    (∀ e : H3Error, e ≠ .Done →
        H3Connection.poll (.error e) = .error (to_napi_error_h3 e)) := by
  refine ⟨rfl, rfl, rfl, fun _ _ => rfl, fun _ => rfl, fun _ _ => rfl, ?_, ?_, ?_⟩ <;>
    (intro e he; cases e <;> first | rfl | exact absurd rfl he)

/-- Witness for C1: non-Done engine failures surface as error values at
concrete variants. -/
theorem done_maps_to_null_never_error_witness :
    (QuicheError.InvalidFrame ≠ QuicheError.Done ∧
      Connection.send (.error .InvalidFrame) = .error (to_napi_error .InvalidFrame)) ∧
    (QuicheError.TlsFail ≠ QuicheError.Done ∧
      Connection.dgram_recv (.error .TlsFail) = .error (to_napi_error .TlsFail)) ∧
    (H3Error.FrameError ≠ H3Error.Done ∧
      H3Connection.poll (.error .FrameError) = .error (to_napi_error_h3 .FrameError)) :=
  ⟨⟨by decide, done_maps_to_null_never_error.2.2.2.2.2.2.1 .InvalidFrame (by decide)⟩,
   ⟨by decide, done_maps_to_null_never_error.2.2.2.2.2.2.2.1 .TlsFail (by decide)⟩,
   ⟨by decide, done_maps_to_null_never_error.2.2.2.2.2.2.2.2 .FrameError (by decide)⟩⟩

/-- Claim C2: identifier buffers of length 0 or above 20 make `connect`,
`accept` and `generate_cid` fail with an InvalidArg error before any engine
call; lengths 1-20 pass the length check, and `generate_cid` yields exactly
the requested number of bytes. -/
theorem cid_length_validation :
    (∀ (scid : List Nat) (lp pp : Option SockAddr) eng,
        scid.length = 0 ∨ scid.length > MAX_CONN_ID_LEN →
        (Connection.connect scid lp pp eng).2 = false ∧
        ∃ msg, (Connection.connect scid lp pp eng).1 = .error ⟨Status.InvalidArg, msg⟩) ∧
    (∀ (scid : List Nat) odcid (lp pp : Option SockAddr) eng,
        scid.length = 0 ∨ scid.length > MAX_CONN_ID_LEN →
        (Connection.accept scid odcid lp pp eng).2 = false ∧
        ∃ msg, (Connection.accept scid odcid lp pp eng).1 = .error ⟨Status.InvalidArg, msg⟩) ∧
    (∀ len rngOk rng, len = 0 ∨ len > MAX_CONN_ID_LEN →
        generate_cid len rngOk rng = .error ⟨Status.InvalidArg, "Length must be 1-20"⟩) ∧
    (∀ (scid : List Nat) l p eng, 1 ≤ scid.length → scid.length ≤ MAX_CONN_ID_LEN →
        (Connection.connect scid (some l) (some p) eng).2 = true) ∧
    (∀ (scid : List Nat) odcid l p eng, 1 ≤ scid.length → scid.length ≤ MAX_CONN_ID_LEN →
        (Connection.accept scid odcid (some l) (some p) eng).2 = true) ∧
    (∀ len rng, 1 ≤ len → len ≤ MAX_CONN_ID_LEN →
        generate_cid len true rng = .ok ((List.range len).map fun i => rng i % 256) ∧
        ∀ rngOk buf, generate_cid len rngOk rng = .ok buf → buf.length = len) := by
  refine ⟨?_, ?_, ?_, ?_, ?_, ?_⟩
  · intro scid lp pp eng h
    cases lp with
    | none => exact ⟨rfl, "Invalid local address", rfl⟩
    | some l =>
      cases pp with
      | none => exact ⟨rfl, "Invalid peer address", rfl⟩
      | some p =>
        simp only [Connection.connect, if_pos h]
        exact ⟨trivial, "SCID must be 1-20 bytes", rfl⟩
  · intro scid odcid lp pp eng h
    cases lp with
    | none => exact ⟨rfl, "Invalid local address", rfl⟩
    | some l =>
      cases pp with
      | none => exact ⟨rfl, "Invalid peer address", rfl⟩
      | some p =>
        simp only [Connection.accept, if_pos h]
        exact ⟨trivial, "SCID must be 1-20 bytes", rfl⟩
  · intro len rngOk rng h
    simp only [generate_cid, if_pos h]
  · intro scid l p eng h1 h2
    have hn : ¬ (scid.length = 0 ∨ scid.length > MAX_CONN_ID_LEN) := by omega
    simp only [Connection.connect, if_neg hn]
    cases eng l p <;> rfl
  · intro scid odcid l p eng h1 h2
    have hn : ¬ (scid.length = 0 ∨ scid.length > MAX_CONN_ID_LEN) := by omega
    simp only [Connection.accept, if_neg hn]
    cases eng odcid l p <;> rfl
  · intro len rng h1 h2
    have hn : ¬ (len = 0 ∨ len > MAX_CONN_ID_LEN) := by omega
    constructor
    · simp [generate_cid, hn]
    · intro rngOk buf hbuf
      cases rngOk with
      | true =>
        simp only [generate_cid, if_neg hn] at hbuf
        cases hbuf
        simp
      | false =>
        simp only [generate_cid, if_neg hn] at hbuf
        cases hbuf

/-- Witness for C2: the empty identifier is rejected with InvalidArg and the
engine is not reached; a 4-byte request yields a 4-byte identifier. -/
theorem cid_length_validation_witness :
    (([] : List Nat).length = 0 ∨ ([] : List Nat).length > MAX_CONN_ID_LEN) ∧
    (Connection.connect [] (some ⟨0, 0⟩) (some ⟨1, 1⟩) fun _ _ => .ok ⟨none⟩).2 = false ∧
    (∃ msg, (Connection.connect [] (some ⟨0, 0⟩) (some ⟨1, 1⟩) fun _ _ => .ok ⟨none⟩).1 =
      .error ⟨Status.InvalidArg, msg⟩) ∧
    generate_cid 4 true (fun i => i + 1) = .ok [1, 2, 3, 4] :=
  ⟨Or.inl rfl,
   (cid_length_validation.1 [] (some ⟨0, 0⟩) (some ⟨1, 1⟩) (fun _ _ => .ok ⟨none⟩)
      (Or.inl rfl)).1,
   (cid_length_validation.1 [] (some ⟨0, 0⟩) (some ⟨1, 1⟩) (fun _ _ => .ok ⟨none⟩)
      (Or.inl rfl)).2,
   by
     have := (cid_length_validation.2.2.2.2.2 4 (fun i => i + 1) (by decide) (by decide)).1
     simpa [List.range] using this⟩

/-- Counterexample to C3 as stated: closing with the non-UTF-8 reason byte
0xFF does not return that byte sequence from `local_error`; the facade
re-encodes the reason through a lossy UTF-8 conversion. -/
theorem local_error_reason_reencoded :
    Connection.local_error (Connection.close ⟨⟨none⟩, ⟨0, 0⟩⟩ true 7 [0xFF]).2 ≠
      some ⟨true, 7, [0xFF]⟩ := by
  decide

/-- Claim C3 as amended: after a successful `close(app, E, R)`, every
subsequent `local_error()` returns the stable snapshot whose reason is the
lossy UTF-8 decoding of R; the byte sequence R is preserved exactly whenever
R is well-formed UTF-8. -/
theorem local_error_snapshot (c : Connection) (app : Bool) (code : Nat)
    (R : List Nat) (h : c.inner.localError = none) :
    (Connection.close c app code R).1 = .ok () ∧
    Connection.local_error (Connection.close c app code R).2 =
      some ⟨app, code, utf8Lossy R⟩ ∧
    (∀ (app2 : Bool) (code2 : Nat) (R2 : List Nat),
        Connection.local_error
            (Connection.close (Connection.close c app code R).2 app2 code2 R2).2 =
          some ⟨app, code, utf8Lossy R⟩) ∧
    (ValidUtf8 R → utf8Lossy R = R) := by
  refine ⟨?_, ?_, ?_, utf8Lossy_of_valid R⟩ <;>
    simp [Connection.close, EngineConn.close, Connection.local_error, h]

/-- Witness for C3 (amended): a concrete close on a fresh connection whose
snapshot is observed through `local_error`. -/
theorem local_error_snapshot_witness :
    (Connection.mk ⟨none⟩ ⟨0, 0⟩).inner.localError = none ∧
    Connection.local_error (Connection.close ⟨⟨none⟩, ⟨0, 0⟩⟩ true 7 [104, 105]).2 =
      some ⟨true, 7, utf8Lossy [104, 105]⟩ :=
  ⟨rfl, (local_error_snapshot ⟨⟨none⟩, ⟨0, 0⟩⟩ true 7 [104, 105] rfl).2.1⟩

/-- Counterexample to C4 as stated: an unparseable local address makes
`probe_path` fail with status GenericFailure, not the InvalidArg status the
claim requires. -/
theorem migration_invalid_addr_generic_status :
    (Connection.probe_path none (some ⟨0, 0⟩) fun _ _ => .ok 0).1 =
      .error ⟨Status.GenericFailure, "Invalid local address"⟩ ∧
    Status.GenericFailure ≠ Status.InvalidArg := by
  decide

/-- Claim C4 as amended: for every address argument that does not parse,
each of `probe_path`, `migrate` and `migrate_source` fails before the engine
is invoked with a validation error naming the invalid address — but the
error carries the GenericFailure status, not InvalidArg. -/
theorem migration_addr_validation (lp pp : Option SockAddr)
    (engP engM : SockAddr → SockAddr → Except QuicheError Nat)
    (engS : SockAddr → Except QuicheError Nat) :
    (lp = none ∨ pp = none →
      (Connection.probe_path lp pp engP).2 = false ∧
      (∃ msg, (Connection.probe_path lp pp engP).1 =
        .error ⟨Status.GenericFailure, msg⟩) ∧
      (Connection.migrate lp pp engM).2 = false ∧
      (∃ msg, (Connection.migrate lp pp engM).1 =
        .error ⟨Status.GenericFailure, msg⟩)) ∧
    (lp = none →
      (Connection.migrate_source lp engS).2 = false ∧
      ∃ msg, (Connection.migrate_source lp engS).1 =
        .error ⟨Status.GenericFailure, msg⟩) := by
  constructor
  · intro h
    cases lp with
    | none =>
      exact ⟨rfl, ⟨"Invalid local address", rfl⟩, rfl, "Invalid local address", rfl⟩
    | some l =>
      cases pp with
      | none =>
        exact ⟨rfl, ⟨"Invalid peer address", rfl⟩, rfl, "Invalid peer address", rfl⟩
      | some p => simp at h
  · intro h
    cases lp with
    | none => exact ⟨rfl, "Invalid local address", rfl⟩
    | some l => simp at h

/-- Witness for C4 (amended): concrete unparseable local address, engine not
reached, GenericFailure status returned. -/
theorem migration_addr_validation_witness :
    ((none : Option SockAddr) = none ∨ (some ⟨1, 1⟩ : Option SockAddr) = none) ∧
    (Connection.probe_path none (some ⟨1, 1⟩) fun _ _ => .ok 3).2 = false ∧
    (∃ msg, (Connection.probe_path none (some ⟨1, 1⟩) fun _ _ => .ok 3).1 =
      .error ⟨Status.GenericFailure, msg⟩) ∧
    (Connection.migrate none (some ⟨1, 1⟩) fun _ _ => .ok 3).2 = false ∧
    (∃ msg, (Connection.migrate none (some ⟨1, 1⟩) fun _ _ => .ok 3).1 =
      .error ⟨Status.GenericFailure, msg⟩) :=
  ⟨Or.inl rfl,
   (migration_addr_validation none (some ⟨1, 1⟩) (fun _ _ => .ok 3) (fun _ _ => .ok 3)
      (fun _ => .ok 3)).1 (Or.inl rfl)⟩

/-- Claim C5: the error mapper is total and cannot fail — every variant of
either taxonomy maps to a stable pair with the GenericFailure kind, and
variant payloads never change the fixed message, so each distinct variant has
exactly one message. -/
theorem error_mapper_total_fixed :
    (∀ e : QuicheError, (to_napi_error e).status = Status.GenericFailure) ∧
    (∀ e : H3Error, (to_napi_error_h3 e).status = Status.GenericFailure) ∧
    (∀ a b : Nat,
        to_napi_error (.InvalidStreamState a) = to_napi_error (.InvalidStreamState b) ∧
        to_napi_error (.StreamStopped a) = to_napi_error (.StreamStopped b) ∧
        to_napi_error (.StreamReset a) = to_napi_error (.StreamReset b)) ∧
    (∀ e1 e2 : QuicheError,
        to_napi_error_h3 (.TransportError e1) = to_napi_error_h3 (.TransportError e2)) := by
  refine ⟨fun e => ?_, fun e => ?_, fun a b => ⟨rfl, rfl, rfl⟩, fun e1 e2 => rfl⟩ <;>
    cases e <;> rfl

/-- Claim C6: `is_version_negotiation` is false for buffers shorter than 5
bytes or with the long-header bit clear, and for 5-byte-or-longer buffers
with the bit set it is true exactly when the 4-byte big-endian version field
is zero. -/
theorem version_negotiation_check :
    (∀ buf : List Nat, buf.length < 5 → is_version_negotiation buf = false) ∧
    (∀ buf : List Nat, buf.getD 0 0 &&& 0x80 = 0 → is_version_negotiation buf = false) ∧
    (∀ buf : List Nat, 5 ≤ buf.length → buf.getD 0 0 &&& 0x80 ≠ 0 →
        (is_version_negotiation buf = true ↔
          u32FromBeBytes (buf.getD 1 0) (buf.getD 2 0) (buf.getD 3 0) (buf.getD 4 0) = 0)) := by
  refine ⟨?_, ?_, ?_⟩
  · intro buf h
    simp [is_version_negotiation, h]
  · intro buf h
    by_cases hlen : buf.length < 5
    · simp [is_version_negotiation, hlen]
    · simp only [is_version_negotiation, if_neg hlen]
      rw [if_pos h]
  · intro buf hlen hbit
    have hnlt : ¬ buf.length < 5 := by omega
    simp only [is_version_negotiation, if_neg hnlt, if_neg hbit]
    exact decide_eq_true_iff

/-- Witness for C6: short buffer, clear long-header bit, and a long-header
buffer with zero version, each at concrete inputs. -/
theorem version_negotiation_check_witness :
    (([0x80, 1, 2] : List Nat).length < 5 ∧ is_version_negotiation [0x80, 1, 2] = false) ∧
    (([0x7F, 0, 0, 0, 0] : List Nat).getD 0 0 &&& 0x80 = 0 ∧
      is_version_negotiation [0x7F, 0, 0, 0, 0] = false) ∧
    (5 ≤ ([0xC0, 0, 0, 0, 0] : List Nat).length ∧
      ([0xC0, 0, 0, 0, 0] : List Nat).getD 0 0 &&& 0x80 ≠ 0 ∧
      (is_version_negotiation [0xC0, 0, 0, 0, 0] = true ↔
        u32FromBeBytes 0 0 0 0 = 0)) :=
  ⟨⟨by decide, version_negotiation_check.1 [0x80, 1, 2] (by decide)⟩,
   ⟨by decide, version_negotiation_check.2.1 [0x7F, 0, 0, 0, 0] (by decide)⟩,
   ⟨by decide, by decide,
    version_negotiation_check.2.2 [0xC0, 0, 0, 0, 0] (by decide) (by decide)⟩⟩

/-- Claim C7: encoding ["h3", "http/1.1"] yields exactly the bytes
02 68 33 08 68 74 74 70 2F 31 2E 31, and in general the encoder succeeds on
every list of names of at most 255 bytes, producing the in-order
concatenation of length byte plus name bytes. -/
theorem encode_alpn_wire_format :
    encode_alpn [[104, 51], [104, 116, 116, 112, 47, 49, 46, 49]] =
      .ok [2, 104, 51, 8, 104, 116, 116, 112, 47, 49, 46, 49] ∧
    ∀ ps : List (List Nat), (∀ p ∈ ps, p.length ≤ 255) →
      encode_alpn ps = .ok (ps.foldr (fun p rest => (p.length :: p) ++ rest) []) := by
  constructor
  · decide
  · intro ps h
    simpa [encode_alpn] using encodeAlpnLoop_ok ps [] h

/-- Witness for C7: the general shape at a concrete singleton list. -/
theorem encode_alpn_wire_format_witness :
    (∀ p ∈ ([[110, 119, 101, 112, 47, 49]] : List (List Nat)), p.length ≤ 255) ∧
    encode_alpn [[110, 119, 101, 112, 47, 49]] =
      .ok (([[110, 119, 101, 112, 47, 49]] : List (List Nat)).foldr
        (fun p rest => (p.length :: p) ++ rest) []) :=
  ⟨by decide, encode_alpn_wire_format.2 [[110, 119, 101, 112, 47, 49]] (by decide)⟩

/-- Claim C8: cloning a `PacketHeader` preserves every field's value, and the
cloned identifier and token buffers are fresh allocations, never aliasing any
buffer of the original. -/
theorem packet_header_clone_deep (h : PacketHeader) (alloc : Nat)
    (hfresh : ∀ a ∈ h.headerAddrs, a < alloc) :
    (h.clone alloc).packet_type = h.packet_type ∧
    (h.clone alloc).version = h.version ∧
    (h.clone alloc).dcid.data = h.dcid.data ∧
    (h.clone alloc).scid.data = h.scid.data ∧
    ((h.clone alloc).token.map Buffer.data) = (h.token.map Buffer.data) ∧
    (h.clone alloc).versions = h.versions ∧
    (∀ a ∈ (h.clone alloc).headerAddrs, ∀ b ∈ h.headerAddrs, a ≠ b) := by
  refine ⟨rfl, rfl, rfl, rfl, ?_, rfl, ?_⟩
  · cases htok : h.token <;> simp [PacketHeader.clone, htok]
  · intro a ha b hb
    have hblt : b < alloc := hfresh b hb
    cases htok : h.token with
    | none =>
      simp [PacketHeader.clone, PacketHeader.headerAddrs, htok] at ha
      rcases ha with ha | ha <;> omega
    | some t =>
      simp [PacketHeader.clone, PacketHeader.headerAddrs, htok] at ha
      rcases ha with ha | ha | ha <;> omega

/-- Witness for C8: a concrete header cloned at a fresh allocation boundary
keeps its bytes and shares no buffer address with the original. -/
theorem packet_header_clone_deep_witness :
    (∀ a ∈ (PacketHeader.mk .Initial 1 ⟨0, [1]⟩ ⟨1, [2]⟩ none none).headerAddrs,
        a < 2) ∧
    ((PacketHeader.mk .Initial 1 ⟨0, [1]⟩ ⟨1, [2]⟩ none none).clone 2).dcid.data =
      (PacketHeader.mk .Initial 1 ⟨0, [1]⟩ ⟨1, [2]⟩ none none).dcid.data ∧
    (∀ a ∈ ((PacketHeader.mk .Initial 1 ⟨0, [1]⟩ ⟨1, [2]⟩ none none).clone 2).headerAddrs,
        ∀ b ∈ (PacketHeader.mk .Initial 1 ⟨0, [1]⟩ ⟨1, [2]⟩ none none).headerAddrs,
        a ≠ b) :=
  ⟨by decide,
   (packet_header_clone_deep (PacketHeader.mk .Initial 1 ⟨0, [1]⟩ ⟨1, [2]⟩ none none) 2
      (by decide)).2.2.1,
   (packet_header_clone_deep (PacketHeader.mk .Initial 1 ⟨0, [1]⟩ ⟨1, [2]⟩ none none) 2
      (by decide)).2.2.2.2.2.2⟩

/-- Claim C9: `stream_writable` returns true exactly when the engine's
writability check succeeds with a positive result, and collapses both a
negative result and an engine failure into a plain false, never an error. -/
theorem stream_writable_collapses_failure :
    (∀ r : Except QuicheError Bool,
        Connection.stream_writable r = true ↔ r = .ok true) ∧
    (∀ e : QuicheError, Connection.stream_writable (.error e) = false) ∧
    Connection.stream_writable (.ok false) = false := by
  refine ⟨fun r => ?_, fun e => rfl, rfl⟩
  cases r with
  | ok b => cases b <;> simp [Connection.stream_writable]
  | error e => simp [Connection.stream_writable]

/-- Claim C10: the fixed ALPN constants agree with the general encoder —
`nwep_alpn` equals the encoding of ["nwep/1"] and `nwep_and_h3_alpn` equals
the encoding of ["nwep/1", "h3"]. -/
theorem alpn_constants_agree :
    encode_alpn [[0x6E, 0x77, 0x65, 0x70, 0x2F, 0x31]] = .ok nwep_alpn ∧
    encode_alpn [[0x6E, 0x77, 0x65, 0x70, 0x2F, 0x31], [0x68, 0x33]] =
      .ok nwep_and_h3_alpn := by
  exact ⟨by decide, by decide⟩
